import Mathlib

/-
Shallow embedding of the external process execution subsystem of the
gitops-tools extension (file src/cli/shell/exec.ts), together with proofs
about it.  Machine-level effects are made explicit:

* the child process is modelled by the trace of stdout/stderr chunk events
  it produces plus the exit code delivered to the exit handler (null when
  the process was terminated by a signal, for this subsystem: by the
  timeout kill);
* the two timers installed by setExecTimeoutKill are modelled by the list
  of tree-kill signals they emit, as a function of the observations the
  timer callbacks make (proc.exitCode at the deadline, is-running at the
  end of the grace window);
* the environment is an association list, and the aliasing of process.env
  inside execOpts (the source takes no copy) is recorded explicitly.
-/

namespace Gitops

/-- Result record delivered to callers, from the ShellResult interface of
exec.ts.  The code field is an Option because the exit callback receives
null when the process died from a signal (the timeout kill path). -/
structure ShellResult where
  code : Option Int
  stdout : String
  stderr : String
deriving Repr, DecidableEq

/-- Translation of getUseWsl: the source ignores the upstream use-wsl
setting and always returns false. -/
def getUseWsl : Bool := false

/-- Translation of the Platform enum of exec.ts. -/
inductive Platform where
  | Windows
  | MacOS
  | Linux
  | Unsupported
deriving Repr, DecidableEq

/-- Translation of the WINDOWS constant. -/
def WINDOWS : String := "win32"

/-- Translation of isWindows: process.platform equals win32 and wsl is not
in use.  The ambient process.platform is passed explicitly. -/
def isWindows (processPlatform : String) : Bool :=
  (processPlatform == WINDOWS) && !getUseWsl

/-- Translation of isUnix. -/
def isUnix (processPlatform : String) : Bool :=
  !isWindows processPlatform

/-- Translation of platform: the switch over process.platform, with the
use-wsl short circuit first. -/
def platform (processPlatform : String) : Platform :=
  if getUseWsl then Platform.Linux
  else if processPlatform = "win32" then Platform.Windows
  else if processPlatform = "darwin" then Platform.MacOS
  else if processPlatform = "linux" then Platform.Linux
  else Platform.Unsupported

/-- Environment of a process: an association list of variable names to
values, in insertion order. -/
abbrev Env := List (String × String)

/-- Lookup of a variable in an environment. -/
def envGet (e : Env) (k : String) : Option String :=
  match e with
  | [] => none
  | (k0, v0) :: rest => if k0 = k then some v0 else envGet rest k

/-- Assignment env[k] = v: overwrite in place when the key exists,
append otherwise. -/
def envSet (e : Env) (k v : String) : Env :=
  match e with
  | [] => [(k, v)]
  | (k0, v0) :: rest =>
    if k0 = k then (k0, v) :: rest else (k0, v0) :: envSet rest k v

/-- Result of the JS expression env.Path += x when env.Path may be absent:
JavaScript renders an undefined left operand as the string undefined. -/
def jsStringOrUndefined (v : Option String) : String :=
  match v with
  | some s => s
  | none => "undefined"

/-- Ambient configuration read by execOpts: the vs-kubernetes kubeconfig
setting (some s when the setting is a string), the flux path stored in
globalState, and process.platform. -/
structure ExecConfig where
  kubeconfigSetting : Option String
  fluxPathState : Option String
  processPlatform : String
deriving Repr, DecidableEq

/-- Translation of the environment computation of execOpts.  The source
does let env = process.env, so env is process.env itself, not a copy; the
result below is both the environment given to the child and the new
environment of the invoking process (see processEnvAfterExecOpts).
The guard isWindows or isUnix is kept although it is always true. -/
def execOpts (cfg : ExecConfig) (procEnv : Env) : Env :=
  if isWindows cfg.processPlatform || isUnix cfg.processPlatform then
    let env1 :=
      match cfg.kubeconfigSetting with
      | some kubeconfigPath =>
        if kubeconfigPath ≠ "" then envSet procEnv "KUBECONFIG" kubeconfigPath
        else procEnv
      | none => procEnv
    if isWindows cfg.processPlatform then
      match cfg.fluxPathState with
      | some fluxPath =>
        envSet env1 "Path" (jsStringOrUndefined (envGet env1 "Path") ++ (";" ++ fluxPath))
      | none => env1
    else env1
  else procEnv

/-- Environment of the invoking process after one call of execOpts.
Because env aliases process.env in the source, the assignments inside
execOpts are mutations of the process environment itself. -/
def processEnvAfterExecOpts (cfg : ExecConfig) (procEnv : Env) : Env :=
  execOpts cfg procEnv

/-- Translation of the try/catch wrapper exec: the outcome of the inner
execCore call is either a ShellResult or a thrown error (its text).  The
catch branch converts the thrown error into a ShellResult with code 2 and
the error text in stderr, so the function is total: nothing is re-thrown
to the caller. -/
def exec (execCoreOutcome : Except String ShellResult) : ShellResult :=
  match execCoreOutcome with
  | Except.ok shellResult => shellResult
  | Except.error e =>
    { code := some 2, stdout := "", stderr := "Failed to execute " ++ e }

/-- One chunk event delivered by the child process on its stdout or stderr
stream, in delivery order. -/
inductive ChunkEv where
  | out (data : String)
  | err (data : String)
deriving Repr, DecidableEq

/-- Observable behaviour of one child process inside innerExec: the
interleaved chunk events followed by the exit notification.  exitCode is
none exactly when the exit handler receives null. -/
structure ChildBehavior where
  chunks : List ChunkEv
  exitCode : Option Int
deriving Repr, DecidableEq

/-- Accumulated stdout of innerExec: concatenation of the stdout chunks in
delivery order (stdout += data in the source). -/
def stdoutConcat : List ChunkEv → String
  | [] => ""
  | ChunkEv.out d :: rest => d ++ stdoutConcat rest
  | ChunkEv.err _ :: rest => stdoutConcat rest

/-- Accumulated stderr of innerExec: concatenation of the stderr chunks in
delivery order (stderr += data in the source). -/
def stderrConcat : List ChunkEv → String
  | [] => ""
  | ChunkEv.out _ :: rest => stderrConcat rest
  | ChunkEv.err d :: rest => d ++ stderrConcat rest

/-- Single quote character, written by code point. -/
def squote : String := (Char.ofNat 39).toString

/-- Marker prepended to stderr by the exit handler when the exit code is
null, from the template literal in innerExec. -/
def timeoutMarker (cmd : String) : String :=
  ("exec " ++ squote ++ cmd ++ squote) ++ " timed out.\nSTDERR: "

/-- Stderr delivered on the timeout path: the marker followed by the
partial stderr accumulated before termination. -/
def timeoutStderrNote (cmd stderrSoFar : String) : String :=
  timeoutMarker cmd ++ stderrSoFar

/-- Translation of the resolve in the exit handler of innerExec: the
ShellResult built from the accumulated buffers and the exit code, with the
stderr annotated when the code is null. -/
def innerExecResult (cmd : String) (b : ChildBehavior) : ShellResult :=
  match b.exitCode with
  | none =>
    { code := none
      stdout := stdoutConcat b.chunks
      stderr := timeoutStderrNote cmd (stderrConcat b.chunks) }
  | some code =>
    { code := some code
      stdout := stdoutConcat b.chunks
      stderr := stderrConcat b.chunks }

/-- Origin of one push into the output sink.  The source passes only text
to output.send; the origin tag is bookkeeping identifying which handler of
innerExec performed the push, used to state the streaming property. -/
inductive SinkSource where
  | cmdEcho
  | stdoutChunk
  | stderrChunk
  | exitNewline
deriving Repr, DecidableEq

/-- One push into the output sink: origin tag, text, and the newline and
revealOutputView option fields passed to output.send. -/
structure SinkEntry where
  src : SinkSource
  text : String
  newline : String
  reveal : Bool
deriving Repr, DecidableEq

/-- Sink push performed by the stdout/stderr data handlers of innerExec:
output.send of the chunk with newline none and revealOutputView false. -/
def chunkSinkEntry : ChunkEv → SinkEntry
  | ChunkEv.out d => { src := SinkSource.stdoutChunk, text := d, newline := "none", reveal := false }
  | ChunkEv.err d => { src := SinkSource.stderrChunk, text := d, newline := "none", reveal := false }

/-- Sink push performed at the top of innerExec: the command echo. -/
def cmdEchoEntry (cmd : String) (revealOutputView : Bool) : SinkEntry :=
  { src := SinkSource.cmdEcho, text := "> " ++ cmd, newline := "single", reveal := revealOutputView }

/-- Sink push performed first inside the exit handler. -/
def exitNewlineEntry : SinkEntry :=
  { src := SinkSource.exitNewline, text := "\n", newline := "none", reveal := false }

/-- Full trace of sink pushes performed by one innerExec run, in program
order: command echo, then one push per chunk event in delivery order, then
the newline pushed by the exit handler. -/
def innerExecSink (cmd : String) (revealOutputView : Bool) (b : ChildBehavior) : List SinkEntry :=
  cmdEchoEntry cmd revealOutputView :: (b.chunks.map chunkSinkEntry ++ [exitNewlineEntry])

/-- Messages reported to the progress object by the data handlers, in
delivery order: every chunk of either stream is reported. -/
def innerExecProgress (b : ChildBehavior) : List String :=
  b.chunks.map (fun e => match e with | ChunkEv.out d => d | ChunkEv.err d => d)

/-- Destination of progress reports chosen by execWithOutput: a vscode
notification when showProgress, otherwise the no-op progress object. -/
inductive ProgressDest where
  | notification
  | noopProgress
deriving Repr, DecidableEq

/-- One run of execWithOutput: the resolved ShellResult, the sink trace,
the progress messages and where they go. -/
structure ExecWithOutputRun where
  result : ShellResult
  sink : List SinkEntry
  progressMsgs : List String
  progressDest : ProgressDest
deriving Repr, DecidableEq

/-- Translation of execWithOutput: both branches of showProgress run the
same innerExec; the flags only choose the progress destination and the
revealOutputView option of the echo push. -/
def execWithOutput (cmd : String) (revealOutputView showProgress : Bool)
    (b : ChildBehavior) : ExecWithOutputRun :=
  { result := innerExecResult cmd b
    sink := innerExecSink cmd revealOutputView b
    progressMsgs := innerExecProgress b
    progressDest := if showProgress then ProgressDest.notification else ProgressDest.noopProgress }

/-- Decimal digit value of a character, none for a non-digit. -/
def decDigit (c : Char) : Option Nat :=
  if 48 ≤ c.toNat ∧ c.toNat ≤ 57 then some (c.toNat - 48) else none

/-- Hexadecimal digit value of a character, none for a non-digit. -/
def hexDigit (c : Char) : Option Nat :=
  if 48 ≤ c.toNat ∧ c.toNat ≤ 57 then some (c.toNat - 48)
  else if 97 ≤ c.toNat ∧ c.toNat ≤ 102 then some (c.toNat - 87)
  else if 65 ≤ c.toNat ∧ c.toNat ≤ 70 then some (c.toNat - 55)
  else none

/-- Maximal leading digit run: accumulates digits until the first
non-digit; none when no digit was read at all. -/
def parseRun (digit : Char → Option Nat) (radix : Nat) : List Char → Option Nat → Option Nat
  | [], acc => acc
  | c :: rest, acc =>
    match digit c with
    | some d => parseRun digit radix rest (some (acc.getD 0 * radix + d))
    | none => acc

/-- JavaScript whitespace skipped by parseInt. -/
def jsWhitespace (c : Char) : Bool :=
  c == ' ' || c == '\t' || c == '\n' || c == '\r'

/-- Drop leading whitespace. -/
def skipLeadingWs : List Char → List Char
  | [] => []
  | c :: rest => if jsWhitespace c then skipLeadingWs rest else c :: rest

/-- Model of the JavaScript parseInt(s) used on the execTimeout setting:
skip whitespace, read an optional sign, then either a 0x/0X hexadecimal
run or a decimal run; none models NaN (no digit read). -/
def parseIntJS (s : String) : Option Int :=
  let cs := skipLeadingWs s.toList
  let signed : Int × List Char :=
    match cs with
    | c :: rest =>
      if c = '-' then (-1, rest)
      else if c = '+' then (1, rest)
      else (1, cs)
    | [] => (1, [])
  let mag : Option Nat :=
    match signed.2 with
    | c0 :: c1 :: rest =>
      if c0 = '0' ∧ (c1 = 'x' ∨ c1 = 'X') then parseRun hexDigit 16 rest none
      else parseRun decDigit 10 signed.2 none
    | _ => parseRun decDigit 10 signed.2 none
  mag.map (fun n => signed.1 * (n : Int))

/-- Signal number used by tkill(pid, 15). -/
def SIGTERM : Nat := 15

/-- Signal number used by tkill(pid, 9). -/
def SIGKILL : Nat := 9

/-- Fixed grace delay of the inner setTimeout, in milliseconds. -/
def graceWindowMs : Nat := 2000

/-- Observations the timer callbacks of setExecTimeoutKill can make about
the process, as functions of the time in milliseconds since spawn.
exitCodeAt is proc.exitCode (none while no exit code was recorded, which
includes a process killed by a signal); runningAt is the is-running check
of the root pid.  descendantAliveAt is a ghost observation about the
descendants of the process: the source never consults it, because
is-running is only ever applied to proc.pid. -/
structure ProcObs where
  exitCodeAt : Nat → Option Int
  runningAt : Nat → Bool
  descendantAliveAt : Nat → Bool

/-- Translation of setExecTimeoutKill: parse the execTimeout setting; on
NaN or 0 install nothing; otherwise a timer fires at timeoutSeconds * 1000
milliseconds (a negative product is clamped to 0, as setTimeout does), and
when proc.exitCode is still null it tree-kills with SIGTERM and arms the
2000 ms grace timer, which tree-kills with SIGKILL when the root pid is
still running.  The value is the list of emitted tree signals with their
times. -/
def setExecTimeoutKill (timeoutSetting : String) (obs : ProcObs) : List (Nat × Nat) :=
  match parseIntJS timeoutSetting with
  | none => []
  | some timeoutSeconds =>
    if timeoutSeconds = 0 then []
    else
      let fireAt : Nat := (timeoutSeconds * 1000).toNat
      if obs.exitCodeAt fireAt = none then
        (fireAt, SIGTERM) ::
          (if obs.runningAt (fireAt + graceWindowMs) then
            [(fireAt + graceWindowMs, SIGKILL)]
          else [])
      else []

/-- Verdict on whether setExecTimeoutKill arms its deadline timer: none
when the setting is unparsable (NaN) or parses to 0. -/
def armedExecTimeout (timeoutSetting : String) : Option Int :=
  match parseIntJS timeoutSetting with
  | none => none
  | some n => if n = 0 then none else some n

/-- Results resolved by the timer callbacks of setExecTimeoutKill: none —
the callback bodies only emit signals, they never resolve the promise of
the surrounding execution. -/
def timerDeliveredResults (_timeoutSetting : String) (_obs : ProcObs) : List ShellResult :=
  []

/-- All ShellResult deliveries of one execution: the single resolve of the
exit handler plus whatever the timers deliver (nothing). -/
def deliveredResults (cmd timeoutSetting : String) (obs : ProcObs) (b : ChildBehavior) :
    List ShellResult :=
  [innerExecResult cmd b] ++ timerDeliveredResults timeoutSetting obs

/-- Command string handed to the shelljs exec call inside execCore, after
the use-wsl branch. -/
def execCoreSpawnCmd (cmd : String) : String :=
  if getUseWsl then "wsl " ++ cmd else cmd

/-- Command string handed to the shelljs exec call inside execProc, after
the use-wsl branch. -/
def execProcSpawnCmd (cmd : String) : String :=
  if getUseWsl then "wsl " ++ cmd else cmd

/-- Outcome of the phase before the spawn call: either a validation fault
signalled to the caller, or the command string handed to the spawn. -/
inductive PreSpawn where
  | fault (message : String)
  | spawnCmd (cmd : String)
deriving Repr, DecidableEq

/-- Validation performed by execCore before calling shelljs exec: none —
the command string, empty or not, reaches the spawn call unchanged but for
the use-wsl branch. -/
def execCorePreSpawn (cmd : String) : PreSpawn :=
  PreSpawn.spawnCmd (execCoreSpawnCmd cmd)

/-- Validation performed by innerExec of execWithOutput before calling
shelljs exec: none — the command string reaches the spawn call as is. -/
def innerExecPreSpawn (cmd : String) : PreSpawn :=
  PreSpawn.spawnCmd cmd

/-- Concatenation of the texts of the sink pushes with a given origin, in
push order. -/
def sinkTextConcat (s : SinkSource) : List SinkEntry → String
  | [] => ""
  | e :: rest => (if e.src = s then e.text else "") ++ sinkTextConcat s rest

/-- Concrete observation: process never records an exit code and its root
pid stays running (a hung command). -/
def obsAlwaysAlive : ProcObs :=
  { exitCodeAt := fun _ => none
    runningAt := fun _ => true
    descendantAliveAt := fun _ => true }

/-- Concrete observation: the root process dies from the SIGTERM (so its
exit code stays null and is-running turns false) while one of its
descendants survives the grace window. -/
def obsDescendantOrphan : ProcObs :=
  { exitCodeAt := fun _ => none
    runningAt := fun _ => false
    descendantAliveAt := fun _ => true }

/-- Concrete observation: process already exited with code 0 before any
timer fired. -/
def obsAlreadyExited : ProcObs :=
  { exitCodeAt := fun _ => some 0
    runningAt := fun _ => false
    descendantAliveAt := fun _ => false }

/-- Concrete child behaviour: a timed out command with partial stderr. -/
def behaviorTimeoutW : ChildBehavior :=
  { chunks := [ChunkEv.err "partial"], exitCode := none }

/-- Concrete child behaviour: a failing command with interleaved output. -/
def behaviorFailW : ChildBehavior :=
  { chunks := [ChunkEv.out "a", ChunkEv.err "e", ChunkEv.out "b"], exitCode := some 1 }

/-- Concrete configuration: Windows with a stored flux path and no
kubeconfig setting. -/
def cfgFluxWin : ExecConfig :=
  { kubeconfigSetting := none, fluxPathState := some "F", processPlatform := "win32" }

/-- Normal form of setExecTimeoutKill when the setting parses to a nonzero
number of seconds. -/
theorem setExecTimeoutKill_eq_of_parse (timeoutSetting : String) (n : Int) (obs : ProcObs)
    (hp : parseIntJS timeoutSetting = some n) (hn : ¬ n = 0) :
    setExecTimeoutKill timeoutSetting obs =
      (if obs.exitCodeAt (n * 1000).toNat = none then
        ((n * 1000).toNat, SIGTERM) ::
          (if obs.runningAt ((n * 1000).toNat + graceWindowMs) then
            [((n * 1000).toNat + graceWindowMs, SIGKILL)]
          else [])
      else []) := by
  unfold setExecTimeoutKill
  rw [hp]
  simp [hn]

/-- When the deadline timer is not armed, no signal is ever emitted. -/
theorem setExecTimeoutKill_eq_nil_of_unarmed (timeoutSetting : String) (obs : ProcObs)
    (h : armedExecTimeout timeoutSetting = none) :
    setExecTimeoutKill timeoutSetting obs = [] := by
  unfold armedExecTimeout at h
  unfold setExecTimeoutKill
  rcases hp : parseIntJS timeoutSetting with _ | n
  · rfl
  · rcases eq_or_ne n 0 with h0 | h0
    · subst h0
      rfl
    · rw [hp] at h
      have h2 : (if n = 0 then none else some n : Option Int) = none := h
      rw [if_neg h0] at h2
      exact absurd h2 (Option.some_ne_none n)

/-- A SIGTERM emission is guarded by the null exit code observation at the
moment it fires. -/
theorem mem_setExecTimeoutKill_sigterm (timeoutSetting : String) (obs : ProcObs) (t : Nat)
    (hmem : (t, SIGTERM) ∈ setExecTimeoutKill timeoutSetting obs) :
    obs.exitCodeAt t = none := by
  rcases hp : parseIntJS timeoutSetting with _ | n
  · rw [setExecTimeoutKill_eq_nil_of_unarmed timeoutSetting obs (by simp [armedExecTimeout, hp])] at hmem
    exact absurd hmem (List.not_mem_nil _)
  · rcases eq_or_ne n 0 with h0 | h0
    · rw [setExecTimeoutKill_eq_nil_of_unarmed timeoutSetting obs
        (by simp [armedExecTimeout, hp, h0])] at hmem
      exact absurd hmem (List.not_mem_nil _)
    · rw [setExecTimeoutKill_eq_of_parse timeoutSetting n obs hp h0] at hmem
      by_cases hnull : obs.exitCodeAt (n * 1000).toNat = none
      · rw [if_pos hnull] at hmem
        rcases List.mem_cons.mp hmem with heq | hmem2
        · injection heq with ht _
          rw [ht]
          exact hnull
        · by_cases hrun : obs.runningAt ((n * 1000).toNat + graceWindowMs) = true
          · rw [if_pos hrun] at hmem2
            have heq2 := List.mem_singleton.mp hmem2
            injection heq2 with _ hs
            exact absurd hs (by decide)
          · rw [if_neg hrun] at hmem2
            exact absurd hmem2 (List.not_mem_nil _)
      · rw [if_neg hnull] at hmem
        exact absurd hmem (List.not_mem_nil _)

/-- A SIGKILL emission is guarded by the is-running observation at the
moment it fires. -/
theorem mem_setExecTimeoutKill_sigkill (timeoutSetting : String) (obs : ProcObs) (t : Nat)
    (hmem : (t, SIGKILL) ∈ setExecTimeoutKill timeoutSetting obs) :
    obs.runningAt t = true := by
  rcases hp : parseIntJS timeoutSetting with _ | n
  · rw [setExecTimeoutKill_eq_nil_of_unarmed timeoutSetting obs (by simp [armedExecTimeout, hp])] at hmem
    exact absurd hmem (List.not_mem_nil _)
  · rcases eq_or_ne n 0 with h0 | h0
    · rw [setExecTimeoutKill_eq_nil_of_unarmed timeoutSetting obs
        (by simp [armedExecTimeout, hp, h0])] at hmem
      exact absurd hmem (List.not_mem_nil _)
    · rw [setExecTimeoutKill_eq_of_parse timeoutSetting n obs hp h0] at hmem
      by_cases hnull : obs.exitCodeAt (n * 1000).toNat = none
      · rw [if_pos hnull] at hmem
        rcases List.mem_cons.mp hmem with heq | hmem2
        · injection heq with _ hs
          exact absurd hs (by decide)
        · by_cases hrun : obs.runningAt ((n * 1000).toNat + graceWindowMs) = true
          · rw [if_pos hrun] at hmem2
            have heq2 := List.mem_singleton.mp hmem2
            injection heq2 with ht _
            rw [ht]
            exact hrun
          · rw [if_neg hrun] at hmem2
            exact absurd hmem2 (List.not_mem_nil _)
      · rw [if_neg hnull] at hmem
        exact absurd hmem (List.not_mem_nil _)

/-- When both signals are emitted, the SIGKILL fires exactly one grace
window after the SIGTERM. -/
theorem setExecTimeoutKill_sig_gap (timeoutSetting : String) (obs : ProcObs) (t1 t2 : Nat)
    (h1 : (t1, SIGTERM) ∈ setExecTimeoutKill timeoutSetting obs)
    (h2 : (t2, SIGKILL) ∈ setExecTimeoutKill timeoutSetting obs) :
    t2 = t1 + graceWindowMs := by
  rcases hp : parseIntJS timeoutSetting with _ | n
  · rw [setExecTimeoutKill_eq_nil_of_unarmed timeoutSetting obs (by simp [armedExecTimeout, hp])] at h1
    exact absurd h1 (List.not_mem_nil _)
  · rcases eq_or_ne n 0 with h0 | h0
    · rw [setExecTimeoutKill_eq_nil_of_unarmed timeoutSetting obs
        (by simp [armedExecTimeout, hp, h0])] at h1
      exact absurd h1 (List.not_mem_nil _)
    · rw [setExecTimeoutKill_eq_of_parse timeoutSetting n obs hp h0] at h1 h2
      by_cases hnull : obs.exitCodeAt (n * 1000).toNat = none
      · rw [if_pos hnull] at h1 h2
        by_cases hrun : obs.runningAt ((n * 1000).toNat + graceWindowMs) = true
        · rw [if_pos hrun] at h1 h2
          rcases List.mem_cons.mp h1 with e1 | m1
          · injection e1 with e1t _
            rcases List.mem_cons.mp h2 with e2 | m2
            · injection e2 with _ e2s
              exact absurd e2s (by decide)
            · have e2 := List.mem_singleton.mp m2
              injection e2 with e2t _
              rw [e1t, e2t]
          · have e1 := List.mem_singleton.mp m1
            injection e1 with _ e1s
            exact absurd e1s (by decide)
        · rw [if_neg hrun] at h2
          rcases List.mem_cons.mp h2 with e2 | m2
          · injection e2 with _ e2s
            exact absurd e2s (by decide)
          · exact absurd m2 (List.not_mem_nil _)
      · rw [if_neg hnull] at h1
        exact absurd h1 (List.not_mem_nil _)

/-- Reading back the key just assigned yields the assigned value. -/
theorem envGet_envSet_self (e : Env) (k v : String) : envGet (envSet e k v) k = some v := by
  induction e with
  | nil => simp [envSet, envGet]
  | cons p rest ih =>
    obtain ⟨k0, v0⟩ := p
    by_cases h : k0 = k
    · simp [envSet, envGet, h]
    · simp [envSet, envGet, h, ih]

/-- Assigning one key leaves the other keys unchanged. -/
theorem envGet_envSet_other (e : Env) (k k2 v : String) (h : k2 ≠ k) :
    envGet (envSet e k2 v) k = envGet e k := by
  induction e with
  | nil => simp [envSet, envGet, h]
  | cons p rest ih =>
    obtain ⟨k0, v0⟩ := p
    by_cases h0 : k0 = k2
    · subst h0
      simp [envSet, envGet, h]
    · by_cases hk : k0 = k
      · subst hk
        simp [envSet, envGet, Ne.symm h]
      · simp [envSet, envGet, h0, hk, ih]

/-- The stdout text pushed to the sink by the chunk handlers and the exit
newline concatenates to the accumulated stdout buffer. -/
theorem sinkTextConcat_stdout_chunks (chunks : List ChunkEv) :
    sinkTextConcat SinkSource.stdoutChunk (chunks.map chunkSinkEntry ++ [exitNewlineEntry])
      = stdoutConcat chunks := by
  induction chunks with
  | nil => rfl
  | cons c rest ih =>
    cases c with
    | out d =>
      simp [sinkTextConcat, chunkSinkEntry, stdoutConcat, ih, String.empty_append]
    | err d =>
      simp [sinkTextConcat, chunkSinkEntry, stdoutConcat, ih, String.empty_append]

/-- The stderr text pushed to the sink by the chunk handlers and the exit
newline concatenates to the accumulated stderr buffer. -/
theorem sinkTextConcat_stderr_chunks (chunks : List ChunkEv) :
    sinkTextConcat SinkSource.stderrChunk (chunks.map chunkSinkEntry ++ [exitNewlineEntry])
      = stderrConcat chunks := by
  induction chunks with
  | nil => rfl
  | cons c rest ih =>
    cases c with
    | out d =>
      simp [sinkTextConcat, chunkSinkEntry, stderrConcat, ih, String.empty_append]
    | err d =>
      simp [sinkTextConcat, chunkSinkEntry, stderrConcat, ih, String.empty_append]

/-- The stdout field of the result is the accumulated stdout buffer on
both exit paths. -/
theorem innerExecResult_stdout (cmd : String) (b : ChildBehavior) :
    (innerExecResult cmd b).stdout = stdoutConcat b.chunks := by
  obtain ⟨chunks, ec⟩ := b
  cases ec <;> rfl

/-- C1: when the exit notification carries a null exit code, the delivered
ShellResult has code null and its stderr is the timeout marker followed by
the partial stderr captured before termination; conversely a non-null exit
code passes through unchanged with the plain accumulated stderr, so a null
code is the sole discriminator between timeout and ordinary failure. -/
theorem timeout_null_code_annotated (cmd : String) (b : ChildBehavior) :
    ((innerExecResult cmd b).code = none ↔ b.exitCode = none)
    ∧ (b.exitCode = none →
        (innerExecResult cmd b).stderr = timeoutStderrNote cmd (stderrConcat b.chunks)
        ∧ ∃ pre, (innerExecResult cmd b).stderr = pre ++ stderrConcat b.chunks)
    ∧ (∀ c : Int, b.exitCode = some c →
        (innerExecResult cmd b).code = some c
        ∧ (innerExecResult cmd b).stderr = stderrConcat b.chunks) := by
  obtain ⟨chunks, ec⟩ := b
  cases ec with
  | none =>
    refine ⟨by simp [innerExecResult], fun _ => ⟨rfl, ⟨timeoutMarker cmd, rfl⟩⟩, ?_⟩
    intro c hc
    exact absurd hc (by simp [innerExecResult])
  | some k =>
    refine ⟨by simp [innerExecResult], fun hc => absurd hc (by simp), ?_⟩
    intro c hc
    have hk : k = c := by
      simpa using hc
    subst hk
    exact ⟨rfl, rfl⟩

/-- C1 witness: a concrete timed out run with partial stderr gets code
null and the annotated stderr. -/
theorem timeout_null_code_annotated_witness :
    (innerExecResult "flux check" behaviorTimeoutW).code = none
    ∧ (innerExecResult "flux check" behaviorTimeoutW).stderr
        = timeoutStderrNote "flux check" (stderrConcat behaviorTimeoutW.chunks) :=
  ⟨(timeout_null_code_annotated "flux check" behaviorTimeoutW).1.mpr rfl,
   ((timeout_null_code_annotated "flux check" behaviorTimeoutW).2.1 rfl).1⟩

/-- C2 counterexample: with a 1 second timeout, a root process whose exit
code is still null at the deadline but which is no longer running at the
end of the grace window, while one of its descendants is still alive, gets
only the SIGTERM: the claimed SIGKILL for a surviving descendant is never
sent, because the source only checks is-running on the root pid. -/
theorem timeout_descendant_no_sigkill_cex :
    setExecTimeoutKill "1" obsDescendantOrphan = [(1000, SIGTERM)]
    ∧ obsDescendantOrphan.descendantAliveAt (1000 + graceWindowMs) = true :=
  ⟨by decide, rfl⟩

/-- C2 (amended): with a configured positive timeout, on deadline expiry
while proc.exitCode is still null, a SIGTERM is tree-killed to the process
and its descendants and the fixed 2 second grace timer starts; the whole
tree SIGKILL is sent if and only if the root process is still running at
the end of the grace window (a surviving descendant of a dead root does
not trigger it). -/
theorem timeout_two_stage_kill (timeoutSetting : String) (n : Int) (obs : ProcObs)
    (hp : parseIntJS timeoutSetting = some n) (hpos : 0 < n)
    (hnull : obs.exitCodeAt (n * 1000).toNat = none) :
    ((n * 1000).toNat, SIGTERM) ∈ setExecTimeoutKill timeoutSetting obs
    ∧ (((n * 1000).toNat + graceWindowMs, SIGKILL) ∈ setExecTimeoutKill timeoutSetting obs
        ↔ obs.runningAt ((n * 1000).toNat + graceWindowMs) = true) := by
  have hn0 : ¬ n = 0 := by omega
  rw [setExecTimeoutKill_eq_of_parse timeoutSetting n obs hp hn0, if_pos hnull]
  constructor
  · exact List.mem_cons_self _ _
  · constructor
    · intro hmem
      rcases List.mem_cons.mp hmem with heq | hmem2
      · injection heq with ht hs
        exact absurd hs (by decide)
      · by_cases hrun : obs.runningAt ((n * 1000).toNat + graceWindowMs) = true
        · exact hrun
        · rw [if_neg hrun] at hmem2
          exact absurd hmem2 (List.not_mem_nil _)
    · intro hrun
      rw [if_pos hrun]
      exact List.mem_cons_of_mem _ (List.mem_singleton.mpr rfl)

/-- C2 witness: a 1 second timeout on a hung process sends the SIGTERM at
1000 ms and the SIGKILL exactly at the end of the grace window. -/
theorem timeout_two_stage_kill_witness :
    (((1 : Int) * 1000).toNat, SIGTERM) ∈ setExecTimeoutKill "1" obsAlwaysAlive
    ∧ ((((1 : Int) * 1000).toNat + graceWindowMs, SIGKILL) ∈ setExecTimeoutKill "1" obsAlwaysAlive
        ↔ obsAlwaysAlive.runningAt (((1 : Int) * 1000).toNat + graceWindowMs) = true) :=
  timeout_two_stage_kill "1" 1 obsAlwaysAlive (by decide) (by decide) rfl

/-- C3: when the inner spawn throws, the catch branch of exec converts the
error into an ordinary ShellResult with the non-zero code 2 and the error
text in stderr; exec is a total function, so nothing propagates to the
caller. -/
theorem spawn_failure_shell_result (e : String) :
    (exec (Except.error e)).code = some 2
    ∧ (exec (Except.error e)).code ≠ some 0
    ∧ (exec (Except.error e)).stderr = "Failed to execute " ++ e :=
  ⟨rfl, by simp [exec], rfl⟩

/-- C4: the concatenation of the stdout chunks pushed to the output sink,
in delivery order, equals the stdout of the final ShellResult; the same
holds of the stderr chunks whenever the process exits with a non-null
code. -/
theorem sink_stream_concat (cmd : String) (revealOutputView : Bool) (b : ChildBehavior) :
    sinkTextConcat SinkSource.stdoutChunk (innerExecSink cmd revealOutputView b)
        = (innerExecResult cmd b).stdout
    ∧ (∀ c : Int, b.exitCode = some c →
        sinkTextConcat SinkSource.stderrChunk (innerExecSink cmd revealOutputView b)
          = (innerExecResult cmd b).stderr) := by
  constructor
  · have hhead : sinkTextConcat SinkSource.stdoutChunk (innerExecSink cmd revealOutputView b)
        = sinkTextConcat SinkSource.stdoutChunk (b.chunks.map chunkSinkEntry ++ [exitNewlineEntry]) := by
      simp [innerExecSink, sinkTextConcat, cmdEchoEntry, String.empty_append]
    rw [hhead, sinkTextConcat_stdout_chunks, innerExecResult_stdout]
  · intro c hc
    have hhead : sinkTextConcat SinkSource.stderrChunk (innerExecSink cmd revealOutputView b)
        = sinkTextConcat SinkSource.stderrChunk (b.chunks.map chunkSinkEntry ++ [exitNewlineEntry]) := by
      simp [innerExecSink, sinkTextConcat, cmdEchoEntry, String.empty_append]
    rw [hhead, sinkTextConcat_stderr_chunks]
    obtain ⟨chunks, ec⟩ := b
    cases ec with
    | none => exact absurd hc (by simp)
    | some k => rfl

/-- C4 witness: a concrete failing run with interleaved chunks satisfies
the stderr accumulation relation. -/
theorem sink_stream_concat_witness :
    sinkTextConcat SinkSource.stderrChunk (innerExecSink "flux version" true behaviorFailW)
      = (innerExecResult "flux version" behaviorFailW).stderr :=
  (sink_stream_concat "flux version" true behaviorFailW).2 1 rfl

/-- C5: each invocation delivers exactly one terminal ShellResult (the
single resolve of the exit handler; the timer callbacks never resolve),
and the timers are idempotent towards a dead process: when the exit code
is already recorded at the deadline no signal at all is emitted, SIGTERM
is emitted only when the exit code is still null at its firing time, and
SIGKILL only when the root pid is still observed running at its firing
time. -/
theorem single_delivery_guarded_signals (cmd timeoutSetting : String) (obs : ProcObs)
    (b : ChildBehavior) :
    (deliveredResults cmd timeoutSetting obs b).length = 1
    ∧ (∀ n : Int, parseIntJS timeoutSetting = some n →
        obs.exitCodeAt (n * 1000).toNat ≠ none →
        setExecTimeoutKill timeoutSetting obs = [])
    ∧ (∀ t : Nat, (t, SIGTERM) ∈ setExecTimeoutKill timeoutSetting obs →
        obs.exitCodeAt t = none)
    ∧ (∀ t : Nat, (t, SIGKILL) ∈ setExecTimeoutKill timeoutSetting obs →
        obs.runningAt t = true) := by
  refine ⟨rfl, ?_, ?_, ?_⟩
  · intro n hp hne
    rcases eq_or_ne n 0 with h0 | h0
    · exact setExecTimeoutKill_eq_nil_of_unarmed timeoutSetting obs
        (by simp [armedExecTimeout, hp, h0])
    · rw [setExecTimeoutKill_eq_of_parse timeoutSetting n obs hp h0, if_neg hne]
  · exact fun t hmem => mem_setExecTimeoutKill_sigterm timeoutSetting obs t hmem
  · exact fun t hmem => mem_setExecTimeoutKill_sigkill timeoutSetting obs t hmem

/-- C5 witness: with a 1 second timeout on a process that already exited
with code 0, the delivery count is one and no signal is emitted. -/
theorem single_delivery_guarded_signals_witness :
    (deliveredResults "flux" "1" obsAlreadyExited behaviorFailW).length = 1
    ∧ setExecTimeoutKill "1" obsAlreadyExited = [] :=
  ⟨(single_delivery_guarded_signals "flux" "1" obsAlreadyExited behaviorFailW).1,
   (single_delivery_guarded_signals "flux" "1" obsAlreadyExited behaviorFailW).2.1 1
     (by decide) (by decide)⟩

/-- C6: the grace window is the fixed constant 2000 ms; the deadline timer
is unarmed exactly when the setting is unparsable or parses to 0, in which
case no signal is ever emitted; and whenever both signals are emitted the
SIGKILL time is the SIGTERM time plus the constant grace window, whatever
the configured timeout. -/
theorem grace_window_fixed (timeoutSetting : String) (obs : ProcObs) :
    graceWindowMs = 2000
    ∧ (armedExecTimeout timeoutSetting = none ↔
        (parseIntJS timeoutSetting = none ∨ parseIntJS timeoutSetting = some 0))
    ∧ (armedExecTimeout timeoutSetting = none → setExecTimeoutKill timeoutSetting obs = [])
    ∧ (∀ t1 t2 : Nat, (t1, SIGTERM) ∈ setExecTimeoutKill timeoutSetting obs →
        (t2, SIGKILL) ∈ setExecTimeoutKill timeoutSetting obs →
        t2 = t1 + graceWindowMs) := by
  refine ⟨rfl, ?_, ?_, ?_⟩
  · unfold armedExecTimeout
    rcases hp : parseIntJS timeoutSetting with _ | n
    · simp
    · rcases eq_or_ne n 0 with h0 | h0
      · subst h0
        simp
      · simp [h0]
  · exact fun h => setExecTimeoutKill_eq_nil_of_unarmed timeoutSetting obs h
  · exact fun t1 t2 h1 h2 => setExecTimeoutKill_sig_gap timeoutSetting obs t1 t2 h1 h2

/-- C6 witness: the setting 0 emits nothing, and with setting 1 the two
signal times are 1000 and 1000 plus the grace window. -/
theorem grace_window_fixed_witness :
    setExecTimeoutKill "0" obsAlwaysAlive = []
    ∧ (3000 : Nat) = 1000 + graceWindowMs :=
  ⟨(grace_window_fixed "0" obsAlwaysAlive).2.2.1 (by decide),
   (grace_window_fixed "1" obsAlwaysAlive).2.2.2 1000 3000 (by decide) (by decide)⟩

/-- C7 counterexample: on Windows with a stored flux path, one launch
mutates the invoking process environment (Path gains the flux path), and a
second launch from the mutated environment yields a different child
environment than the first: the child environment is not a copy and
repeated launches with the same configuration do not coincide. -/
theorem exec_env_mutation_cex :
    processEnvAfterExecOpts cfgFluxWin [("Path", "P")] ≠ [("Path", "P")]
    ∧ execOpts cfgFluxWin (processEnvAfterExecOpts cfgFluxWin [("Path", "P")])
        ≠ execOpts cfgFluxWin [("Path", "P")] := by
  constructor <;> decide

/-- C7 (amended): the child environment is the invoking process
environment updated in place: the kubeconfig setting, when a non-empty
string, overrides KUBECONFIG (winning over any previous value), and the
updates are applied to the aliased process environment itself, so after
the launch the invoking process environment equals the child environment
rather than staying unchanged. -/
theorem exec_env_amended (cfg : ExecConfig) (procEnv : Env) (k : String)
    (hk : cfg.kubeconfigSetting = some k) (hne : k ≠ "") :
    envGet (execOpts cfg procEnv) "KUBECONFIG" = some k
    ∧ processEnvAfterExecOpts cfg procEnv = execOpts cfg procEnv := by
  refine ⟨?_, rfl⟩
  unfold execOpts
  rw [hk]
  have hguard : (isWindows cfg.processPlatform || isUnix cfg.processPlatform) = true := by
    unfold isUnix
    cases isWindows cfg.processPlatform <;> rfl
  rw [if_pos hguard]
  simp only [if_pos hne]
  cases hw : isWindows cfg.processPlatform with
  | false =>
    exact envGet_envSet_self procEnv "KUBECONFIG" k
  | true =>
    cases hf : cfg.fluxPathState with
    | none =>
      rw [if_pos rfl]
      exact envGet_envSet_self procEnv "KUBECONFIG" k
    | some fluxPath =>
      rw [if_pos rfl]
      show envGet (envSet (envSet procEnv "KUBECONFIG" k) "Path" _) "KUBECONFIG" = some k
      rw [envGet_envSet_other _ _ _ _ (by decide)]
      exact envGet_envSet_self procEnv "KUBECONFIG" k

/-- C7 witness: a concrete configuration with a kubeconfig setting yields
a child environment whose KUBECONFIG is the configured path. -/
theorem exec_env_amended_witness :
    envGet (execOpts ⟨some "KCFG", some "F", "win32"⟩ [("Path", "P")]) "KUBECONFIG"
      = some "KCFG" :=
  (exec_env_amended ⟨some "KCFG", some "F", "win32"⟩ [("Path", "P")] "KCFG" rfl (by decide)).1

/-- C8 counterexample: the empty command line is not rejected before the
spawn: both execCore and innerExec hand the empty string to the underlying
shell exec call, signalling no validation fault to the caller. -/
theorem empty_command_reaches_spawn_cex :
    execCorePreSpawn "" = PreSpawn.spawnCmd ""
    ∧ innerExecPreSpawn "" = PreSpawn.spawnCmd "" :=
  ⟨rfl, rfl⟩

/-- C8 (amended): the subsystem performs no input validation of the
command line: every command line, the empty one included, reaches the
spawn call unchanged (the wsl branch is never taken), and whatever happens
to an empty command is decided inside the external shell library. -/
theorem no_empty_command_validation (cmd : String) :
    execCorePreSpawn cmd = PreSpawn.spawnCmd cmd
    ∧ innerExecPreSpawn cmd = PreSpawn.spawnCmd cmd :=
  ⟨rfl, rfl⟩

/-- C9: getUseWsl always returns false, so the platform is decided solely
by process.platform (win32, darwin, linux map to their OS and anything
else to Unsupported), isUnix is the negation of isWindows, and the wsl
prefixing branch of execCore and execProc is never taken. -/
theorem wsl_disabled_platform (p cmd : String)
    (h1 : p ≠ "win32") (h2 : p ≠ "darwin") (h3 : p ≠ "linux") :
    getUseWsl = false
    ∧ isUnix p = !isWindows p
    ∧ platform "win32" = Platform.Windows
    ∧ platform "darwin" = Platform.MacOS
    ∧ platform "linux" = Platform.Linux
    ∧ platform p = Platform.Unsupported
    ∧ execCoreSpawnCmd cmd = cmd
    ∧ execProcSpawnCmd cmd = cmd := by
  refine ⟨rfl, rfl, rfl, rfl, rfl, ?_, rfl, rfl⟩
  simp [platform, getUseWsl, h1, h2, h3]

/-- C9 witness: an unrecognized platform string maps to Unsupported and a
concrete command line is spawned without a wsl prefixing. -/
theorem wsl_disabled_platform_witness :
    platform "freebsd" = Platform.Unsupported
    ∧ execCoreSpawnCmd "flux check" = "flux check" :=
  ⟨(wsl_disabled_platform "freebsd" "flux check" (by decide) (by decide) (by decide)).2.2.2.2.2.1,
   (wsl_disabled_platform "freebsd" "flux check" (by decide) (by decide) (by decide)).2.2.2.2.2.2.1⟩

/-- C10: the resolved ShellResult of execWithOutput does not depend on the
showProgress and revealOutputView flags: for the same command and child
behaviour, any two flag choices resolve to the same result (the flags only
choose the progress destination and the reveal option of the echo push). -/
theorem result_independent_of_flags (cmd : String) (b : ChildBehavior)
    (rv1 sp1 rv2 sp2 : Bool) :
    (execWithOutput cmd rv1 sp1 b).result = (execWithOutput cmd rv2 sp2 b).result := rfl

end Gitops
